import Mathlib

/-!
Verification development for the AskDB query-translation and execution router.

The Python sources (`services/db_service.py`, `routes/query_routes.py`) are
shallowly embedded below.  Python objects that travel through the router
(JSON plans, rows, configuration mappings) are modelled by the inductive
type `Val`; Python dicts are association lists.  The external collaborators
(database drivers, the generative-model client, `json.loads`) are modelled
as explicit function parameters ("oracles"), so every theorem quantifies
over their behaviour.  Errors are modelled with `Except`: `.error msg`
stands for a raised Python exception carrying `str(e) = msg`.
-/

/-- Model of a Python/JSON value as it flows through the router.
Numbers are modelled as integers (the router never computes with floats). -/
inductive Val where
  | null
  | bool (b : Bool)
  | int (n : Int)
  | str (s : String)
  | list (xs : List Val)
  | obj (fields : List (String × Val))

/-- A Python dict with string keys, as an association list (first hit wins,
mirroring dict key uniqueness). -/
abbrev Doc := List (String × Val)

/-- Python truthiness (`bool(v)`) for the modelled values. -/
def pyTruthy : Val → Bool
  | .null => false
  | .bool b => b
  | .int n => !(n == 0)
  | .str s => !s.isEmpty
  | .list xs => !xs.isEmpty
  | .obj fs => !fs.isEmpty

mutual
/-- Model of Python `str(v)`.  Exact on `None`/bool/int/str (the cases the
router's messages and `_id` stringification rely on); container rendering is
an approximation whose exact text no theorem depends on. -/
def pyStrV : Val → String
  | .null => "None"
  | .bool true => "True"
  | .bool false => "False"
  | .int n => toString n
  | .str s => s
  | .list xs => "[" ++ String.intercalate ", " (pyStrVList xs) ++ "]"
  | .obj fs => "\x7b" ++ String.intercalate ", " (pyStrVObj fs) ++ "\x7d"

def pyStrVList : List Val → List String
  | [] => []
  | v :: vs => pyStrV v :: pyStrVList vs

def pyStrVObj : List (String × Val) → List String
  | [] => []
  | (k, v) :: fs => (k ++ ": " ++ pyStrV v) :: pyStrVObj fs
end

mutual
/-- Model of `json.dumps(v)` (used by the SQL branch of `execute_query` for a
non-string plan, and by the query route's response).  Escaping is minimal;
no theorem depends on the rendered text. -/
def valDumps : Val → String
  | .null => "null"
  | .bool true => "true"
  | .bool false => "false"
  | .int n => toString n
  | .str s => "\"" ++ s ++ "\""
  | .list xs => "[" ++ String.intercalate ", " (valDumpsList xs) ++ "]"
  | .obj fs => "\x7b" ++ String.intercalate ", " (valDumpsObj fs) ++ "\x7d"

def valDumpsList : List Val → List String
  | [] => []
  | v :: vs => valDumps v :: valDumpsList vs

def valDumpsObj : List (String × Val) → List String
  | [] => []
  | (k, v) :: fs => ("\"" ++ k ++ "\": " ++ valDumps v) :: valDumpsObj fs
end

/-- ASCII whitespace recognised by Python `str.strip()` (the Unicode cases
never arise in the modelled strings). -/
def pyWs (c : Char) : Bool :=
  c = ' ' || c = '\t' || c = '\n' || c = '\r' || c = '\x0b' || c = '\x0c'

/-- Drop characters satisfying `p` from both ends of a character list
(model of Python `str.strip`). -/
def stripCharsBy (p : Char → Bool) (l : List Char) : List Char :=
  ((l.dropWhile p).reverse.dropWhile p).reverse

/-- Python `s.strip()` with default (whitespace) argument. -/
def pyStripWs (s : String) : String :=
  String.mk (stripCharsBy pyWs s.data)

/-- Python `s.upper()` (ASCII; the router only uppercases command names). -/
def pyUpper (s : String) : String := String.mk (s.data.map Char.toUpper)

/-- Python `s.lower()` (ASCII). -/
def pyLower (s : String) : String := String.mk (s.data.map Char.toLower)

/-- Digits of a numeral to a natural number. -/
def digitsToNat (l : List Char) : Nat :=
  l.foldl (fun acc c => acc * 10 + (c.toNat - 48)) 0

/-- Model of Python `int(s)` on a string: optional surrounding whitespace,
optional sign, then decimal digits. -/
def pyIntOfStr (s : String) : Option Int :=
  match stripCharsBy pyWs s.data with
  | '+' :: ds => if !ds.isEmpty && ds.all Char.isDigit then some (digitsToNat ds) else none
  | '-' :: ds => if !ds.isEmpty && ds.all Char.isDigit then some (-(digitsToNat ds : Int)) else none
  | ds => if !ds.isEmpty && ds.all Char.isDigit then some (digitsToNat ds) else none

/-- Python type name of a modelled value (for error messages). -/
def pyTypeName : Val → String
  | .null => "NoneType"
  | .bool _ => "bool"
  | .int _ => "int"
  | .str _ => "str"
  | .list _ => "list"
  | .obj _ => "dict"

/-- Model of Python `int(v)`: identity on ints, bools coerce, numeric strings
parse, everything else raises. -/
def pyInt : Val → Except String Int
  | .int n => .ok n
  | .bool b => .ok (if b then 1 else 0)
  | .str s =>
    match pyIntOfStr s with
    | some n => .ok n
    | none => .error ("invalid literal for int() with base 10: " ++ s)
  | v => .error ("int() argument must be a string or a number, not " ++ pyTypeName v)

/-- Python dict assignment `d[k] = v`: replace in place if the key exists,
otherwise append. -/
def dictSet : Doc → String → Val → Doc
  | [], k, v => [(k, v)]
  | (k', v') :: rest, k, v =>
    if k' = k then (k, v) :: rest else (k', v') :: dictSet rest k v

/-- Lexicographic comparison of character lists by code point, the order
Python's `sorted` uses on strings. -/
def lexLe : List Char → List Char → Bool
  | [], _ => true
  | _ :: _, [] => false
  | c :: cs, d :: ds =>
    if c.toNat < d.toNat then true
    else if d.toNat < c.toNat then false
    else lexLe cs ds

/-- Lexicographic (code-point) order on strings. -/
def strLe (a b : String) : Bool := lexLe a.data b.data

theorem lexLe_total : ∀ as bs, lexLe as bs = true ∨ lexLe bs as = true := by
  intro as
  induction as with
  | nil => exact fun bs => Or.inl rfl
  | cons c cs ih =>
    intro bs
    cases bs with
    | nil => exact Or.inr rfl
    | cons d ds =>
      rcases Nat.lt_trichotomy c.toNat d.toNat with h | h | h
      · left; simp [lexLe, h]
      · rcases ih ds with h' | h'
        · left
          have h1 : ¬ c.toNat < d.toNat := by omega
          have h2 : ¬ d.toNat < c.toNat := by omega
          simp [lexLe, h1, h2, h']
        · right
          have h1 : ¬ c.toNat < d.toNat := by omega
          have h2 : ¬ d.toNat < c.toNat := by omega
          simp [lexLe, h1, h2, h']
      · right; simp [lexLe, h]

theorem lexLe_trans :
    ∀ as bs cs, lexLe as bs = true → lexLe bs cs = true → lexLe as cs = true := by
  intro as
  induction as with
  | nil => intro bs cs h1 h2; rfl
  | cons a as ih =>
    intro bs cs h1 h2
    cases bs with
    | nil => simp [lexLe] at h1
    | cons b bs =>
      cases cs with
      | nil => simp [lexLe] at h2
      | cons c cs =>
        simp only [lexLe] at h1 h2 ⊢
        rcases Nat.lt_trichotomy a.toNat b.toNat with hab | hab | hab
        · rcases Nat.lt_trichotomy b.toNat c.toNat with hbc | hbc | hbc
          · have hac : a.toNat < c.toNat := Nat.lt_trans hab hbc
            simp [hac]
          · have hac : a.toNat < c.toNat := by omega
            simp [hac]
          · have hx : ¬ b.toNat < c.toNat := by omega
            simp [hx, hbc] at h2
        · have hab1 : ¬ a.toNat < b.toNat := by omega
          have hab2 : ¬ b.toNat < a.toNat := by omega
          simp [hab1, hab2] at h1
          rcases Nat.lt_trichotomy b.toNat c.toNat with hbc | hbc | hbc
          · have hac : a.toNat < c.toNat := by omega
            simp [hac]
          · have hx1 : ¬ b.toNat < c.toNat := by omega
            have hx2 : ¬ c.toNat < b.toNat := by omega
            simp [hx1, hx2] at h2
            have hac1 : ¬ a.toNat < c.toNat := by omega
            have hac2 : ¬ c.toNat < a.toNat := by omega
            simp [hac1, hac2]
            exact ih bs cs h1 h2
          · have hx : ¬ b.toNat < c.toNat := by omega
            simp [hx, hbc] at h2
        · have hx : ¬ a.toNat < b.toNat := by omega
          simp [hx, hab] at h1

instance : IsTotal String (fun a b => strLe a b = true) :=
  ⟨fun a b => lexLe_total a.data b.data⟩

instance : IsTrans String (fun a b => strLe a b = true) :=
  ⟨fun a b c => lexLe_trans a.data b.data c.data⟩

/-- The set of keys occurring across a list of documents, without duplicates
(model of the set comprehension in `execute_query`). -/
def keyUnion (docs : List Doc) : List String :=
  (docs.flatMap (fun d => d.map Prod.fst)).dedup

/-- Model of Python sorted set of keys across documents:
lexicographically sorted, duplicate-free. -/
def sortedKeyUnion (docs : List Doc) : List String :=
  List.insertionSort (fun a b => strLe a b = true) (keyUnion docs)

/-- One output row for a document: `[d.get(c) for c in columns]`, missing
keys rendering as null. -/
def rowOf (cols : List String) (d : Doc) : List Val :=
  cols.map fun c => (List.lookup c d).getD Val.null

/-- The documents-to-table normalization `execute_query` repeats verbatim in
its MongoDB, Firestore and Elasticsearch branches: columns are the sorted
key union, rows align values to columns with null fill. -/
def normalizeDocs (docs : List Doc) : List (List Val) × List String :=
  (docs.map (rowOf (sortedKeyUnion docs)), sortedKeyUnion docs)

/-- Word character for the regex `\w` (ASCII model; the stripped fence tags
are ASCII language names). -/
def isWordChar (c : Char) : Bool := c.isAlphanum || c = '_'

/-- State machine equivalent of `re.sub(r"```(?:\w+)?", "", s)` scanning left
to right: `p` counts the pending run of backticks (0..2); `skip` is true
while consuming the word characters of a fence's language tag. -/
def fenceScan : List Char → Nat → Bool → List Char
  | [], p, _ => List.replicate p '`'
  | c :: rest, _, true =>
    if isWordChar c then fenceScan rest 0 true
    else if c = '`' then fenceScan rest 1 false
    else c :: fenceScan rest 0 false
  | c :: rest, p, false =>
    if c = '`' then
      if p = 2 then fenceScan rest 0 true
      else fenceScan rest (p + 1) false
    else List.replicate p '`' ++ c :: fenceScan rest 0 false

/-- Characters stripped from both ends by `_strip_code_fences`:
`s.strip("` \n\r\t")`. -/
def fenceStripSet (c : Char) : Bool :=
  c = '`' || c = ' ' || c = '\n' || c = '\r' || c = '\t'

/-- Model of `_strip_code_fences`: remove code-fence markup, then strip
backticks and whitespace from both ends. -/
def stripCodeFences (s : String) : String :=
  String.mk (stripCharsBy fenceStripSet (fenceScan s.data 0 false))

/-- Does the text start with one of the SQL verbs of the pattern
`(SELECT|INSERT|UPDATE|DELETE)\b`, case-insensitively, followed by a word
boundary? -/
def verbAt (l : List Char) : Bool :=
  ["select", "insert", "update", "delete"].any fun v =>
    ((l.take v.data.length).map Char.toLower == v.data) &&
      (match l.drop v.data.length with
       | [] => true
       | c :: _ => !isWordChar c)

/-- Leftmost suffix at which the SQL-verb pattern matches: the model of
`re.search(r"(SELECT|INSERT|UPDATE|DELETE)\b.*", query, re.I | re.S)`, whose
`group(0)` runs from the verb to the end of the string. -/
def searchVerbSuffix : List Char → Option (List Char)
  | [] => none
  | l@(_ :: rest) => if verbAt l then some l else searchVerbSuffix rest

/-- SQL post-processing of `natural_to_sql` for MySQL/Postgres: strip code
fences, then take the first SQL-verb match to the end (stripped), falling
back to the stripped raw text when no verb occurs. -/
def sqlExtract (genText : String) : String :=
  let query := stripCodeFences genText
  match searchVerbSuffix query.data with
  | some suffixChars => pyStripWs (String.mk suffixChars)
  | none => query

/-- Message standing for Python's `json.JSONDecodeError` raised by
`json.loads` on malformed input. -/
def jsonDecodeFailMsg : String := "Expecting value: line 1 column 1 (char 0)"

/-- Model of `natural_to_sql(prompt, schema, db_type)` after the single
generative call returned `genText` (`resp.text or ""` / `or "{}"`); the
prompt construction does not influence the returned plan and is not
modelled.  `loads` is the external strict JSON parser (`json.loads`),
returning `none` on malformed input. -/
def naturalToSql (loads : String → Option Val) (genText : String) (dbType : Val) :
    Except String Val :=
  match dbType with
  | .str "mysql" | .str "postgres" => .ok (.str (sqlExtract genText))
  | .str "mongodb" | .str "firebase" | .str "elasticsearch" | .str "redis" =>
    match loads (stripCodeFences (if genText = "" then "\x7b\x7d" else genText)) with
    | some v => .ok v
    | none => .error jsonDecodeFailMsg
  | t => .error ("Unsupported database type for NL translation: " ++ pyStrV t)

/-- Model of `plan["key"]`: key lookup on a dict, `KeyError` when absent,
`TypeError` when the subject is not a dict. -/
def vGet (v : Val) (k : String) : Except String Val :=
  match v with
  | .obj fs =>
    match List.lookup k fs with
    | some x => .ok x
    | none => .error ("KeyError: " ++ k)
  | _ => .error ("TypeError: " ++ pyTypeName v ++ " value is not subscriptable by string key")

/-- Model of `plan.get("key", default)`: defaulting lookup on a dict,
`AttributeError` when the subject is not a dict. -/
def vGetD (v : Val) (k : String) (d : Val) : Except String Val :=
  match v with
  | .obj fs => .ok ((List.lookup k fs).getD d)
  | _ => .error ("AttributeError: " ++ pyTypeName v ++ " object has no attribute get")

/-- One row of the tabular result per DB-API cursor row.  `rows_match`
records the DB-API driver contract that every fetched row has one entry per
`cursor.description` column (`description` is `none` when the statement
produced no result set, in which case `fetchall` yields no rows). -/
structure SqlCursorRes where
  rows : List (List Val)
  description : Option (List String)
  rows_match : ∀ r ∈ rows, r.length = (description.getD []).length

/-- Arguments of the single MongoDB `find` call `execute_query` assembles:
filter and optional projection passed to `find`, then optional `sort` pairs
and optional `limit` applied to the cursor. -/
structure MongoFindArgs where
  database : Val
  collection : Val
  filter : Val
  projection : Option Val
  sort : Option (List (Val × Int))
  limit : Option Int

/-- Arguments of the single MongoDB `aggregate` call. -/
structure MongoAggArgs where
  database : Val
  collection : Val
  pipeline : Val

/-- MongoDB driver oracle: what the cursor materializes for a given call. -/
structure MongoConn where
  find : MongoFindArgs → Except String (List Doc)
  aggregate : MongoAggArgs → Except String (List Doc)

/-- Arguments of the Firestore query `execute_query` builds by chaining
`where`, `order_by` and `limit` before streaming. -/
structure FbStreamArgs where
  collection : Val
  wheres : List (Val × Val × Val)
  orderBy : Option (Val × Val)
  limit : Option Int

/-- Firestore driver oracle: each streamed document is its data dict
(`to_dict()`) paired with its identifier (`id`). -/
structure FbConn where
  stream : FbStreamArgs → Except String (List (Doc × String))

/-- Elasticsearch driver oracle: `search(index, body)` returning the raw
response value. -/
structure EsConn where
  search : Val → Val → Except String Val

/-- Redis driver oracle with `decode_responses=True` (string replies).
`dyn name` models `getattr(conn, name, None)`: `none` when the connection
object has no such method, otherwise the method itself. -/
structure RedisConn where
  get : Val → Except String (Option String)
  set : List Val → Except String Val
  hgetall : Val → Except String (List (String × String))
  scan : List Val → Except String (Val × List String)
  dyn : String → Option (List Val → Except String Val)

/-- A live connection handle: the driver object `connect_to_db` returns,
tagged by backend family. -/
inductive Conn where
  | sql (cursorExec : String → Except String SqlCursorRes)
  | mongo (mc : MongoConn)
  | fb (fc : FbConn)
  | es (ec : EsConn)
  | redis (rc : RedisConn)

/-- Entry-wise decoding for `decodeSortPairs`; a sort entry must unpack into
exactly two items, the second convertible by `int`. -/
def decodeSortPairsList : List Val → Except String (List (Val × Int))
  | [] => .ok []
  | .list [f, d] :: rest =>
    match pyInt d with
    | .error e => .error e
    | .ok n =>
      match decodeSortPairsList rest with
      | .error e => .error e
      | .ok tl => .ok ((f, n) :: tl)
  | _ :: _ => .error "ValueError: cannot unpack sort entry"

/-- Decode the entries of `plan["sort"]`:
`[(f, int(dir)) for f, dir in plan["sort"]]`. -/
def decodeSortPairs : Val → Except String (List (Val × Int))
  | .list xs => decodeSortPairsList xs
  | v => .error ("TypeError: " ++ pyTypeName v ++ " object is not iterable")

/-- Entry-wise decoding for `decodeTriples`. -/
def decodeTriplesList : List Val → Except String (List (Val × Val × Val))
  | [] => .ok []
  | .list [a, b, c] :: rest =>
    match decodeTriplesList rest with
    | .error e => .error e
    | .ok tl => .ok ((a, b, c) :: tl)
  | _ :: _ => .error "ValueError: cannot unpack filter entry"

/-- Decode `plan.get("filters", []) or []` entries:
`field, op, value = f` for each filter triple. -/
def decodeTriples : Val → Except String (List (Val × Val × Val))
  | .list xs => decodeTriplesList xs
  | v => .error ("TypeError: " ++ pyTypeName v ++ " object is not iterable")

/-- Decode `f, direction = plan["order_by"]`. -/
def decodePair : Val → Except String (Val × Val)
  | .list [a, b] => .ok (a, b)
  | v => .error ("TypeError: cannot unpack " ++ pyTypeName v ++ " into two values")

/-- The `_id` flattening of the MongoDB `find` branch:
`d["_id"] = str(d.get("_id"))` applied to every returned document. -/
def mongoIdFix (docs : List Doc) : List Doc :=
  docs.map fun d => dictSet d "_id" (Val.str (pyStrV ((List.lookup "_id" d).getD Val.null)))

/-- Is the value kept verbatim by the aggregate `_id` normalization
(`isinstance(d["_id"], (str, int, float))`; bool is an int subclass)? -/
def isStrIntBool : Val → Bool
  | .str _ => true
  | .int _ => true
  | .bool _ => true
  | _ => false

/-- The `_id` stringification of the MongoDB `aggregate` branch: only a
present, non-scalar identifier is replaced by its string form. -/
def mongoAggIdFix (docs : List Doc) : List Doc :=
  docs.map fun d =>
    match List.lookup "_id" d with
    | some v => if isStrIntBool v then d else dictSet d "_id" (Val.str (pyStrV v))
    | none => d

/-- Assemble the arguments of the MongoDB `find` call from the plan dict,
mirroring the reads and truthiness checks of the `find` branch. -/
def mongoFindArgsOf (dbName coll plan : Val) : Except String MongoFindArgs :=
  match vGetD plan "filter" (.obj []) with
  | .error e => .error e
  | .ok filt =>
    match vGetD plan "projection" .null with
    | .error e => .error e
    | .ok projRaw =>
      match vGetD plan "sort" .null with
      | .error e => .error e
      | .ok sortRaw =>
        match (if pyTruthy sortRaw then Except.map some (decodeSortPairs sortRaw) else .ok none) with
        | .error e => .error e
        | .ok sortArg =>
          match vGetD plan "limit" .null with
          | .error e => .error e
          | .ok limRaw =>
            match (if pyTruthy limRaw then Except.map some (pyInt limRaw) else .ok none) with
            | .error e => .error e
            | .ok limArg =>
              .ok { database := dbName, collection := coll, filter := filt,
                    projection := if pyTruthy projRaw then some projRaw else none,
                    sort := sortArg, limit := limArg }

/-- The MongoDB branch of `execute_query` on an already-parsed plan dict. -/
def execMongo (mc : MongoConn) (config plan : Val) : Except String (List (List Val) × List String) :=
  match vGetD config "database" .null with
  | .error e => .error e
  | .ok dbName =>
    match vGet plan "collection" with
    | .error e => .error e
    | .ok coll =>
      match vGetD plan "operation" (.str "find") with
      | .error e => .error e
      | .ok op =>
        match op with
        | .str "find" =>
          match mongoFindArgsOf dbName coll plan with
          | .error e => .error e
          | .ok fargs =>
            match mc.find fargs with
            | .error e => .error e
            | .ok docs =>
              if docs.isEmpty then .ok ([], [])
              else .ok (normalizeDocs (mongoIdFix docs))
        | .str "aggregate" =>
          match vGetD plan "pipeline" (.list []) with
          | .error e => .error e
          | .ok pipe =>
            match mc.aggregate { database := dbName, collection := coll, pipeline := pipe } with
            | .error e => .error e
            | .ok docs =>
              if docs.isEmpty then .ok ([], [])
              else .ok (normalizeDocs (mongoAggIdFix docs))
        | _ => .error ("Unsupported MongoDB operation: " ++ pyStrV op)

/-- Assemble the Firestore query arguments from the plan dict. -/
def fbStreamArgsOf (plan : Val) : Except String FbStreamArgs :=
  match vGet plan "collection" with
  | .error e => .error e
  | .ok coll =>
    match vGetD plan "filters" (.list []) with
    | .error e => .error e
    | .ok filtRaw =>
      match decodeTriples (if pyTruthy filtRaw then filtRaw else .list []) with
      | .error e => .error e
      | .ok wheres =>
        match vGetD plan "order_by" .null with
        | .error e => .error e
        | .ok obRaw =>
          match (if pyTruthy obRaw then Except.map some (decodePair obRaw) else .ok none) with
          | .error e => .error e
          | .ok obArg =>
            match vGetD plan "limit" .null with
            | .error e => .error e
            | .ok limRaw =>
              match (if pyTruthy limRaw then Except.map some (pyInt limRaw) else .ok none) with
              | .error e => .error e
              | .ok limArg =>
                .ok { collection := coll, wheres := wheres, orderBy := obArg, limit := limArg }

/-- The document-id injection of the Firestore branch:
`{**d.to_dict(), "id": d.id}` for every streamed document. -/
def fbIdFix (docs : List (Doc × String)) : List Doc :=
  docs.map fun di => dictSet di.1 "id" (Val.str di.2)

/-- The Firestore branch of `execute_query` on an already-parsed plan dict. -/
def execFb (fc : FbConn) (plan : Val) : Except String (List (List Val) × List String) :=
  match fbStreamArgsOf plan with
  | .error e => .error e
  | .ok args =>
    match fc.stream args with
    | .error e => .error e
    | .ok docs =>
      if docs.isEmpty then .ok ([], [])
      else .ok (normalizeDocs (fbIdFix docs))

/-- Per-hit source extraction of the Elasticsearch branch:
`h.get("_source") or {}`, whose keys are then enumerated. -/
def esSourceOf (h : Val) : Except String Doc :=
  match vGetD h "_source" .null with
  | .error e => .error e
  | .ok s =>
    match (if pyTruthy s then s else .obj []) with
    | .obj fs => .ok fs
    | v => .error ("AttributeError: " ++ pyTypeName v ++ " object has no attribute keys")

/-- Source dicts of all hits (failing on the first malformed hit). -/
def esSources : List Val → Except String (List Doc)
  | [] => .ok []
  | h :: hs =>
    match esSourceOf h with
    | .error e => .error e
    | .ok d =>
      match esSources hs with
      | .error e => .error e
      | .ok ds => .ok (d :: ds)

/-- The Elasticsearch branch of `execute_query` on an already-parsed body. -/
def execEs (ec : EsConn) (config body : Val) : Except String (List (List Val) × List String) :=
  match vGetD config "index" .null with
  | .error e => .error e
  | .ok idx =>
    if pyTruthy idx then
      match ec.search idx body with
      | .error e => .error e
      | .ok res =>
        match vGetD res "hits" (.obj []) with
        | .error e => .error e
        | .ok hitsOuter =>
          match vGetD hitsOuter "hits" (.list []) with
          | .error e => .error e
          | .ok hitsV =>
            if pyTruthy hitsV then
              match hitsV with
              | .list hits =>
                match esSources hits with
                | .error e => .error e
                | .ok srcs => .ok (normalizeDocs srcs)
              | v => .error ("TypeError: " ++ pyTypeName v ++ " object is not iterable")
            else .ok ([], [])
    else .error "Elasticsearch index is required"

/-- The SCAN argument coercion `int(a) if str(a).isdigit() else a`. -/
def pyDigitize : Val → Val
  | .str s => if !s.isEmpty && s.data.all Char.isDigit then .int (digitsToNat s.data) else .str s
  | v => v

/-- The per-element wrapping of the Redis dynamic fallback:
`[x] if not isinstance(x, (list, tuple)) else list(x)`. -/
def wrapRow : Val → List Val
  | .list ys => ys
  | v => [v]

/-- The Redis branch of `execute_query` on an already-parsed plan dict. -/
def execRedis (rc : RedisConn) (plan : Val) : Except String (List (List Val) × List String) :=
  match vGetD plan "command" .null with
  | .error e => .error e
  | .ok cmdRaw =>
    match (if pyTruthy cmdRaw then cmdRaw else .str "") with
    | .str cmdS =>
      match vGetD plan "args" (.list []) with
      | .error e => .error e
      | .ok argsV =>
        match pyUpper cmdS with
        | "GET" =>
          match argsV with
          | .list [k] =>
            match rc.get k with
            | .error e => .error e
            | .ok none => .ok ([], ["value"])
            | .ok (some v) => .ok ([[.str v]], ["value"])
          | .list _ => .error "TypeError: get takes exactly one argument"
          | v => .error ("TypeError: " ++ pyTypeName v ++ " argument unpacking requires a sequence")
        | "SET" =>
          match argsV with
          | .list (k :: v :: rest) =>
            match rc.set (k :: v :: rest) with
            | .error e => .error e
            | .ok okV => .ok ([[.bool (pyTruthy okV)]], ["ok"])
          | .list _ => .error "TypeError: set requires name and value"
          | v => .error ("TypeError: " ++ pyTypeName v ++ " argument unpacking requires a sequence")
        | "HGETALL" =>
          match argsV with
          | .list [k] =>
            match rc.hgetall k with
            | .error e => .error e
            | .ok m =>
              if m.isEmpty then .ok ([], [])
              else .ok (m.map fun kv => [.str kv.1, .str kv.2], ["field", "value"])
          | .list _ => .error "TypeError: hgetall takes exactly one argument"
          | v => .error ("TypeError: " ++ pyTypeName v ++ " argument unpacking requires a sequence")
        | "SCAN" =>
          match argsV with
          | .list args =>
            match rc.scan (args.map pyDigitize) with
            | .error e => .error e
            | .ok cursorKeys => .ok (cursorKeys.2.map fun k => [.str k], ["key"])
          | v => .error ("TypeError: " ++ pyTypeName v ++ " argument unpacking requires a sequence")
        | cmd =>
          match rc.dyn (pyLower cmd) with
          | none => .error ("Unsupported Redis command: " ++ cmd)
          | some fn =>
            match argsV with
            | .list args =>
              match fn args with
              | .error e => .error e
              | .ok (.list xs) =>
                match xs.map wrapRow with
                | [] => .error "list index out of range"
                | r0 :: rs =>
                  .ok (r0 :: rs,
                    if r0.length = 1 then ["value"]
                    else (List.range r0.length).map fun i => "col" ++ toString (i + 1))
              | .ok v => .ok ([[v]], ["result"])
            | v => .error ("TypeError: " ++ pyTypeName v ++ " argument unpacking requires a sequence")
    | v => .error ("AttributeError: " ++ pyTypeName v ++ " object has no attribute upper")

/-- Model of `plan_or_sql if isinstance(plan_or_sql, dict) else
json.loads(plan_or_sql)`. -/
def planAsDict (loads : String → Option Val) (v : Val) : Except String Val :=
  match v with
  | .obj fs => .ok (.obj fs)
  | .str s =>
    match loads s with
    | some w => .ok w
    | none => .error jsonDecodeFailMsg
  | w => .error ("TypeError: the JSON object must be str, not " ++ pyTypeName w)

/-- Model of `plan_or_sql if isinstance(plan_or_sql, str) else
json.dumps(plan_or_sql)` in the SQL branch. -/
def sqlTextOf (v : Val) : String :=
  match v with
  | .str s => s
  | w => valDumps w

/-- The dispatch body of `execute_query` (inside its `try`). -/
def executeQueryInner (loads : String → Option Val) (conn : Conn) (dbType planOrSql config : Val) :
    Except String (List (List Val) × List String) :=
  match dbType with
  | .str "mysql" | .str "postgres" =>
    match conn with
    | .sql cursorExec =>
      match cursorExec (sqlTextOf planOrSql) with
      | .error e => .error e
      | .ok cur => .ok (cur.rows, cur.description.getD [])
    | _ => .error "AttributeError: connection object has no attribute cursor"
  | .str "mongodb" =>
    match conn with
    | .mongo mc =>
      match planAsDict loads planOrSql with
      | .error e => .error e
      | .ok plan => execMongo mc config plan
    | _ => .error "TypeError: connection object is not subscriptable"
  | .str "firebase" =>
    match conn with
    | .fb fc =>
      match planAsDict loads planOrSql with
      | .error e => .error e
      | .ok plan => execFb fc plan
    | _ => .error "AttributeError: connection object has no attribute collection"
  | .str "elasticsearch" =>
    match conn with
    | .es ec =>
      match planAsDict loads planOrSql with
      | .error e => .error e
      | .ok body => execEs ec config body
    | _ => .error "AttributeError: connection object has no attribute search"
  | .str "redis" =>
    match conn with
    | .redis rc =>
      match planAsDict loads planOrSql with
      | .error e => .error e
      | .ok plan => execRedis rc plan
    | _ => .error "AttributeError: connection object has no attribute hgetall"
  | t => .error ("Query execution not implemented for " ++ pyStrV t)

/-- Model of `execute_query(conn, db_type, plan_or_sql, config)`: the
dispatch body with its uniform exception wrapper
`ValueError(f"Error executing query: ...")`. -/
def executeQuery (loads : String → Option Val) (conn : Conn) (dbType planOrSql config : Val) :
    Except String (List (List Val) × List String) :=
  match executeQueryInner loads conn dbType planOrSql config with
  | .error e => .error ("Error executing query: " ++ e)
  | .ok r => .ok r

/-- The Python exception classes `connect_to_db` and the routes can raise or
observe.  `driverError` stands for whatever exception class an external
driver raised (only its message is ever observed).
`unsupportedOperationError` is the error class named by the specification's
taxonomy; the code never constructs it. -/
inductive PyError where
  | connectionError (m : String)
  | valueError (m : String)
  | notImplementedError (m : String)
  | typeError (m : String)
  | driverError (m : String)
  | unsupportedOperationError (m : String)

/-- Message carried by an exception: the model of `str(e)`. -/
def PyError.msg : PyError → String
  | .connectionError m => m
  | .valueError m => m
  | .notImplementedError m => m
  | .typeError m => m
  | .driverError m => m
  | .unsupportedOperationError m => m

/-- Python class name of an exception. -/
def PyError.className : PyError → String
  | .connectionError _ => "ConnectionError"
  | .valueError _ => "ValueError"
  | .notImplementedError _ => "NotImplementedError"
  | .typeError _ => "TypeError"
  | .driverError _ => "DriverError"
  | .unsupportedOperationError _ => "UnsupportedOperationError"

/-- `v or None` (Python): `None` when falsy, the value otherwise. -/
def orNoneV (v : Val) : Val := if pyTruthy v then v else .null

/-- `v or d` (Python): `d` when `v` is falsy. -/
def orDefaultV (v d : Val) : Val := if pyTruthy v then v else d

/-- Connection arguments of the relational branches
(`host`, `port`, `database`, `user`, `password`). -/
structure SqlConnectArgs where
  host : Val
  port : Int
  database : Val
  user : Val
  password : Val

/-- Connection arguments of the MongoDB branch. -/
structure MongoConnectArgs where
  host : Val
  port : Int
  username : Val
  password : Val
  authSource : Val

/-- Connection arguments of the Redis branch (`decode_responses=True` is
implied by the model's string replies). -/
structure RedisConnectArgs where
  host : Val
  port : Int
  password : Val

/-- Connection arguments of the Elasticsearch branch (scheme is always
`http`). -/
structure EsConnectArgs where
  host : Val
  port : Int

/-- Driver oracles for `connect_to_db`: each field models one external
driver entry point and is the single network-touching call of its branch. -/
structure Drivers where
  mysqlConnect : SqlConnectArgs → Except String Conn
  postgresConnect : SqlConnectArgs → Except String Conn
  mongoConnect : MongoConnectArgs → Except String Conn
  redisConnect : RedisConnectArgs → Except String Conn
  firebaseInit : Val → Except String Conn
  esConnect : EsConnectArgs → Except String Conn

/-- Read the relational connection arguments from the config mapping
(`config.get(...)` with the branch's port default). -/
def sqlArgsOf (config : Val) (portDefault : Int) : Except PyError SqlConnectArgs :=
  match config with
  | .obj fs =>
    match pyInt ((List.lookup "port" fs).getD (.int portDefault)) with
    | .error e => .error (.valueError e)
    | .ok port =>
      .ok { host := (List.lookup "host" fs).getD .null, port := port,
            database := (List.lookup "database" fs).getD .null,
            user := (List.lookup "user" fs).getD .null,
            password := (List.lookup "password" fs).getD .null }
  | v => .error (.typeError ("AttributeError: " ++ pyTypeName v ++ " object has no attribute get"))

/-- Read the MongoDB connection arguments
(`user or None`, `password or None`, `database or "admin"`). -/
def mongoArgsOf (config : Val) : Except PyError MongoConnectArgs :=
  match config with
  | .obj fs =>
    match pyInt ((List.lookup "port" fs).getD (.int 27017)) with
    | .error e => .error (.valueError e)
    | .ok port =>
      .ok { host := (List.lookup "host" fs).getD .null, port := port,
            username := orNoneV ((List.lookup "user" fs).getD .null),
            password := orNoneV ((List.lookup "password" fs).getD .null),
            authSource := orDefaultV ((List.lookup "database" fs).getD .null) (.str "admin") }
  | v => .error (.typeError ("AttributeError: " ++ pyTypeName v ++ " object has no attribute get"))

/-- Read the Redis connection arguments. -/
def redisArgsOf (config : Val) : Except PyError RedisConnectArgs :=
  match config with
  | .obj fs =>
    match pyInt ((List.lookup "port" fs).getD (.int 6379)) with
    | .error e => .error (.valueError e)
    | .ok port =>
      .ok { host := (List.lookup "host" fs).getD .null, port := port,
            password := orNoneV ((List.lookup "password" fs).getD .null) }
  | v => .error (.typeError ("AttributeError: " ++ pyTypeName v ++ " object has no attribute get"))

/-- Read the Elasticsearch connection arguments. -/
def esArgsOf (config : Val) : Except PyError EsConnectArgs :=
  match config with
  | .obj fs =>
    match pyInt ((List.lookup "port" fs).getD (.int 9200)) with
    | .error e => .error (.valueError e)
    | .ok port => .ok { host := (List.lookup "host" fs).getD .null, port := port }
  | v => .error (.typeError ("AttributeError: " ++ pyTypeName v ++ " object has no attribute get"))

/-- The Firebase credential blob: `config["config"]`, with a string value
put through `json.loads` when it parses and kept verbatim otherwise. -/
def fbCredOf (loads : String → Option Val) (config : Val) : Except PyError Val :=
  match config with
  | .obj fs =>
    match (List.lookup "config" fs).getD .null with
    | .str s =>
      match loads s with
      | some v => .ok v
      | none => .ok (.str s)
    | v => .ok v
  | v => .error (.typeError ("AttributeError: " ++ pyTypeName v ++ " object has no attribute get"))

/-- The dispatch body of `connect_to_db` (inside its `try`), paired with the
list of network-touching driver calls the branch attempted. -/
def connectInner (loads : String → Option Val) (dv : Drivers) (dbType config : Val) :
    Except PyError Conn × List String :=
  match dbType with
  | .str "mysql" =>
    match sqlArgsOf config 3306 with
    | .error e => (.error e, [])
    | .ok args =>
      match dv.mysqlConnect args with
      | .error e => (.error (.driverError e), ["mysql.connector.connect"])
      | .ok c => (.ok c, ["mysql.connector.connect"])
  | .str "postgres" =>
    match sqlArgsOf config 5432 with
    | .error e => (.error e, [])
    | .ok args =>
      match dv.postgresConnect args with
      | .error e => (.error (.driverError e), ["psycopg2.connect"])
      | .ok c => (.ok c, ["psycopg2.connect"])
  | .str "mongodb" =>
    match mongoArgsOf config with
    | .error e => (.error e, [])
    | .ok args =>
      match dv.mongoConnect args with
      | .error e => (.error (.driverError e), ["pymongo.MongoClient"])
      | .ok c => (.ok c, ["pymongo.MongoClient"])
  | .str "redis" =>
    match redisArgsOf config with
    | .error e => (.error e, [])
    | .ok args =>
      match dv.redisConnect args with
      | .error e => (.error (.driverError e), ["redis.Redis"])
      | .ok c => (.ok c, ["redis.Redis"])
  | .str "firebase" =>
    match fbCredOf loads config with
    | .error e => (.error e, [])
    | .ok sa =>
      match dv.firebaseInit sa with
      | .error e => (.error (.driverError e), ["firebase_admin.initialize_app"])
      | .ok c => (.ok c, ["firebase_admin.initialize_app"])
  | .str "elasticsearch" =>
    match esArgsOf config with
    | .error e => (.error e, [])
    | .ok args =>
      match dv.esConnect args with
      | .error e => (.error (.driverError e), ["Elasticsearch"])
      | .ok c => (.ok c, ["Elasticsearch"])
  | .str "custom" => (.error (.notImplementedError "Custom DB not implemented yet"), [])
  | t => (.error (.valueError ("Unsupported database type: " ++ pyStrV t)), [])

/-- Model of `connect_to_db(db_type, config)`: the dispatch body with its
uniform wrapper `ConnectionError(f"Failed to connect to ...")`, paired with
the network calls attempted. -/
def connectToDb (loads : String → Option Val) (dv : Drivers) (dbType config : Val) :
    Except PyError Conn × List String :=
  match connectInner loads dv dbType config with
  | (.error e, calls) =>
    (.error (.connectionError ("Failed to connect to " ++ pyStrV dbType ++ ": " ++ e.msg)), calls)
  | (.ok c, calls) => (.ok c, calls)

/-- The single-slot connection registry entry the `/connect` route stores
under `connections["active"]`. -/
structure ActiveConn where
  dbType : Val
  conn : Conn
  config : Val

/-- HTTP responses of the two routes (`jsonify` payloads with status). -/
inductive Response where
  | connected (dbType : Val)
  | queryOk (sql : String) (summary : String) (tableHtml : String) (chart : Option String)
  | err (msg : String) (code : Nat)

/-- Model of the `/connect` route: read `type` and `config` from the request
JSON, connect, and replace the active registry entry only on success. -/
def connectRoute (loads : String → Option Val) (dv : Drivers) (registry : Option ActiveConn)
    (data : Val) : Option ActiveConn × Response :=
  match data with
  | .obj fs =>
    let dbType := (List.lookup "type" fs).getD .null
    let config := (List.lookup "config" fs).getD .null
    match connectToDb loads dv dbType config with
    | (.error e, _) => (registry, .err e.msg 400)
    | (.ok c, _) => (some { dbType := dbType, conn := c, config := config }, .connected dbType)
  | v =>
    (registry, .err ("AttributeError: " ++ pyTypeName v ++ " object has no attribute get") 500)

/-- External collaborators of the `/query` route: the generative-model call
made inside `natural_to_sql` (`llm` maps the user prompt, schema snapshot
and backend kind to the generated text), schema introspection
(`get_schema(conn, db_type, config)`, modelled at its interface), the
result post-processor `generate_ai_response`, and pandas `to_html`. -/
structure QueryEnv where
  loads : String → Option Val
  llm : String → Val → Val → String
  get_schema : Conn → Val → Val → Except String Val
  ai : List (List Val) → List String → String → String × Option String
  toHtml : List (List Val) → List String → String

/-- Model of the `/query` route.  Returns the response together with the
trace of pipeline stages that were invoked, in order. -/
def queryRoute (env : QueryEnv) (registry : Option ActiveConn) (data : Val) :
    Response × List String :=
  match registry with
  | none => (.err "No active database connection" 400, [])
  | some active =>
    match data with
    | .obj fs =>
      match (List.lookup "prompt" fs).getD (.str "") with
      | .str rawPrompt =>
        let p := pyStripWs rawPrompt
        if p = "" then (.err "Empty prompt" 400, [])
        else
          match env.get_schema active.conn active.dbType active.config with
          | .error e => (.err e 400, ["get_schema"])
          | .ok schema =>
            match naturalToSql env.loads (env.llm p schema active.dbType) active.dbType with
            | .error e => (.err e 400, ["get_schema", "natural_to_sql"])
            | .ok plan =>
              match executeQuery env.loads active.conn active.dbType plan active.config with
              | .error e => (.err e 400, ["get_schema", "natural_to_sql", "execute_query"])
              | .ok rowsCols =>
                let ai := env.ai rowsCols.1 rowsCols.2 p
                (.queryOk (match plan with | .str s => s | v => valDumps v) ai.1
                  (if rowsCols.1.isEmpty then "" else env.toHtml rowsCols.1 rowsCols.2) ai.2,
                 ["get_schema", "natural_to_sql", "execute_query", "generate_ai_response"])
      | v => (.err ("AttributeError: " ++ pyTypeName v ++ " object has no attribute strip") 500, [])
    | v => (.err ("AttributeError: " ++ pyTypeName v ++ " object has no attribute get") 500, [])

/-- Specification-side characterization (stated from the spec's words, to be
compared with the code's normalization): columns are exactly the keys
occurring across the documents, lexicographically sorted and duplicate-free,
and a document lacking a column's key yields null in that row position. -/
def SortedUnionNullFill (docs : List Doc) (rows : List (List Val)) (cols : List String) : Prop :=
  (∀ c, c ∈ cols ↔ ∃ d ∈ docs, c ∈ d.map Prod.fst) ∧
  List.Sorted (fun a b => strLe a b = true) cols ∧
  cols.Nodup ∧
  rows.length = docs.length ∧
  (∀ (i : Nat) (d : Doc) (r : List Val), docs[i]? = some d → rows[i]? = some r →
    ∀ (j : Nat) (c : String), cols[j]? = some c → List.lookup c d = none → r[j]? = some Val.null)

theorem mem_sortedKeyUnion (docs : List Doc) (c : String) :
    c ∈ sortedKeyUnion docs ↔ ∃ d ∈ docs, c ∈ d.map Prod.fst := by
  rw [sortedKeyUnion, (List.perm_insertionSort _ _).mem_iff, keyUnion, List.mem_dedup,
    List.mem_flatMap]

theorem sortedKeyUnion_sorted (docs : List Doc) :
    List.Sorted (fun a b => strLe a b = true) (sortedKeyUnion docs) :=
  List.sorted_insertionSort _ _

theorem sortedKeyUnion_nodup (docs : List Doc) : (sortedKeyUnion docs).Nodup :=
  (List.perm_insertionSort _ _).nodup_iff.mpr (List.nodup_dedup _)

theorem rowOf_length (cols : List String) (d : Doc) : (rowOf cols d).length = cols.length :=
  List.length_map _ _

theorem normalizeDocs_mem_length (docs : List Doc) (r : List Val)
    (hr : r ∈ (normalizeDocs docs).1) : r.length = (normalizeDocs docs).2.length := by
  simp only [normalizeDocs, List.mem_map] at hr
  obtain ⟨d, -, rfl⟩ := hr
  exact rowOf_length _ _

theorem normalizeDocs_spec (docs : List Doc) :
    SortedUnionNullFill docs (normalizeDocs docs).1 (normalizeDocs docs).2 := by
  refine ⟨fun c => mem_sortedKeyUnion docs c, sortedKeyUnion_sorted docs,
    sortedKeyUnion_nodup docs, List.length_map _ _, ?_⟩
  intro i d r hd hr j c hc hlook
  simp only [normalizeDocs, List.getElem?_map, hd, Option.map_some'] at hr
  obtain rfl : rowOf (sortedKeyUnion docs) d = r := by injection hr
  simp only [normalizeDocs] at hc
  simp only [rowOf, List.getElem?_map, hc, Option.map_some', hlook, Option.getD_none]

theorem normalizeDocs_fst_nil_iff (docs : List Doc) :
    (normalizeDocs docs).1 = [] ↔ docs = [] := by
  simp [normalizeDocs]

/-- C5: for the SQL-family Plan Generator, the generated text
"Here is your query:" followed by a newline and an sql code fence containing
"SELECT id FROM t;" is post-processed (code-fence stripping, then
leading-SQL-verb pattern search) to exactly "SELECT id FROM t;". -/
theorem claim_C5_sql_extraction_example :
    sqlExtract "Here is your query:\n```sql\nSELECT id FROM t;\n```" = "SELECT id FROM t;" ∧
    naturalToSql (fun _ => none) "Here is your query:\n```sql\nSELECT id FROM t;\n```"
      (.str "mysql") = .ok (.str "SELECT id FROM t;") :=
  ⟨rfl, rfl⟩

/-- C6: for the SQL-family Plan Generator, whenever no SQL verb
(SELECT/INSERT/UPDATE/DELETE, case-insensitive, at a word boundary) occurs
in the generated text after code-fence stripping, the stripped raw text is
returned verbatim rather than an error being raised. -/
theorem claim_C6_sql_no_verb_fallback (loads : String → Option Val) (genText : String)
    (hnov : searchVerbSuffix (stripCodeFences genText).data = none) :
    naturalToSql loads genText (.str "mysql") = .ok (.str (stripCodeFences genText)) ∧
    naturalToSql loads genText (.str "postgres") = .ok (.str (stripCodeFences genText)) := by
  constructor <;> simp [naturalToSql, sqlExtract, hnov]

/-- Witness for C6 at the concrete verb-free generated text. -/
theorem claim_C6_witness :
    searchVerbSuffix (stripCodeFences "no valid query was produced").data = none ∧
    naturalToSql (fun _ => none) "no valid query was produced" (.str "mysql") =
      .ok (.str (stripCodeFences "no valid query was produced")) :=
  ⟨rfl, (claim_C6_sql_no_verb_fallback (fun _ => none) "no valid query was produced" rfl).1⟩

/-- C7: for every non-SQL backend kind, when the generated text after
code-fence stripping is not valid JSON (the strict parser yields `none`),
the Plan Generator raises the parse failure and never returns a plan. -/
theorem claim_C7_nonsql_strict_json (loads : String → Option Val) (genText : String) (k : Val)
    (hk : k = .str "mongodb" ∨ k = .str "firebase" ∨ k = .str "elasticsearch" ∨ k = .str "redis")
    (hparse : loads (stripCodeFences (if genText = "" then "\x7b\x7d" else genText)) = none) :
    naturalToSql loads genText k = .error jsonDecodeFailMsg := by
  rcases hk with rfl | rfl | rfl | rfl <;> simp [naturalToSql, hparse]

/-- Witness for C7 with a parser that rejects the stripped text. -/
theorem claim_C7_witness :
    ((fun _ => none : String → Option Val)
        (stripCodeFences (if "oops" = "" then "\x7b\x7d" else "oops")) = none) ∧
    naturalToSql (fun _ => none) "oops" (.str "mongodb") = .error jsonDecodeFailMsg :=
  ⟨rfl, claim_C7_nonsql_strict_json (fun _ => none) "oops" _ (Or.inl rfl) rfl⟩

/-- C8: for the key-value backend, executing a GET plan whose key is absent
from the store returns columns `["value"]` with zero rows, not an error. -/
theorem claim_C8_redis_get_missing_key (loads : String → Option Val) (rc : RedisConn)
    (config k : Val) (hmiss : rc.get k = .ok none) :
    executeQuery loads (.redis rc) (.str "redis")
      (.obj [("command", .str "GET"), ("args", .list [k])]) config =
    .ok ([], ["value"]) := by
  have hinner : executeQueryInner loads (.redis rc) (.str "redis")
      (.obj [("command", .str "GET"), ("args", .list [k])]) config =
      (match rc.get k with
       | .error e => .error e
       | .ok none => .ok ([], ["value"])
       | .ok (some v) => .ok ([[Val.str v]], ["value"])) := rfl
  unfold executeQuery
  rw [hinner, hmiss]

/-- Fixture: a Redis store with no keys and no dynamic commands. -/
def rcMissing : RedisConn where
  get := fun _ => .ok none
  set := fun _ => .ok (.bool true)
  hgetall := fun _ => .ok []
  scan := fun _ => .ok (.int 0, [])
  dyn := fun _ => none

/-- Witness for C8 on the empty store. -/
theorem claim_C8_witness :
    (rcMissing.get (.str "absent") = .ok none) ∧
    executeQuery (fun _ => none) (.redis rcMissing) (.str "redis")
      (.obj [("command", .str "GET"), ("args", .list [.str "absent"])]) (.obj []) =
    .ok ([], ["value"]) :=
  ⟨rfl, claim_C8_redis_get_missing_key (fun _ => none) rcMissing (.obj []) (.str "absent") rfl⟩

/-- Fixture: drivers that refuse every connection attempt. -/
def dvDown : Drivers where
  mysqlConnect := fun _ => .error "server unreachable"
  postgresConnect := fun _ => .error "server unreachable"
  mongoConnect := fun _ => .error "server unreachable"
  redisConnect := fun _ => .error "server unreachable"
  firebaseInit := fun _ => .error "server unreachable"
  esConnect := fun _ => .error "server unreachable"

/-- C2 (amended): for every backend kind string outside the recognized set,
`connect_to_db` attempts no network call and fails, but the surfaced
exception is a ConnectionError wrapping the unsupported-type message (the
internal ValueError is re-raised wrapped), not a distinct
unsupported-operation error class. -/
theorem claim_C2_unknown_kind_no_network (loads : String → Option Val) (dv : Drivers)
    (config : Val) (k : String)
    (hk : k ∉ (["mysql", "postgres", "mongodb", "redis", "firebase", "elasticsearch",
      "custom"] : List String)) :
    connectToDb loads dv (.str k) config =
      (.error (.connectionError
        ("Failed to connect to " ++ k ++ ": " ++ ("Unsupported database type: " ++ k))), []) := by
  simp only [List.mem_cons, List.not_mem_nil, or_false, not_or] at hk
  obtain ⟨h1, h2, h3, h4, h5, h6, h7⟩ := hk
  have hInner : connectInner loads dv (.str k) config =
      (.error (.valueError ("Unsupported database type: " ++ k)), []) := by
    unfold connectInner
    split <;> simp_all [pyStrV]
  unfold connectToDb
  rw [hInner]
  simp [pyStrV, PyError.msg]

/-- Witness for C2's amended statement at kind "sqlite". -/
theorem claim_C2_witness :
    ("sqlite" ∉ (["mysql", "postgres", "mongodb", "redis", "firebase", "elasticsearch",
      "custom"] : List String)) ∧
    connectToDb (fun _ => none) dvDown (.str "sqlite") (.obj []) =
      (.error (.connectionError
        ("Failed to connect to " ++ "sqlite" ++ ": " ++ ("Unsupported database type: " ++ "sqlite"))),
       []) :=
  ⟨by decide, claim_C2_unknown_kind_no_network (fun _ => none) dvDown (.obj []) "sqlite"
    (by decide)⟩

/-- C2 counterexample: at the concrete unknown kind "sqlite", `connect`
surfaces an exception of class ConnectionError, not
UnsupportedOperationError, so the claim's error class is wrong (its
"before any network call" half does hold: no driver call is attempted). -/
theorem claim_C2_counterexample :
    connectToDb (fun _ => none) dvDown (.str "sqlite") (.obj []) =
      (.error (.connectionError
        "Failed to connect to sqlite: Unsupported database type: sqlite"), []) ∧
    PyError.className (.connectionError
        "Failed to connect to sqlite: Unsupported database type: sqlite") ≠
      "UnsupportedOperationError" :=
  ⟨rfl, by decide⟩

theorem connectToDb_error_class (loads : String → Option Val) (dv : Drivers) (t c : Val)
    (e : PyError) (h : (connectToDb loads dv t c).1 = .error e) :
    ∃ m, e = .connectionError m := by
  unfold connectToDb at h
  cases hI : connectInner loads dv t c with
  | mk r calls =>
    rw [hI] at h
    cases r with
    | error e0 =>
      simp only at h
      exact ⟨_, (Except.error.injEq .. ▸ h).symm⟩
    | ok c0 => simp at h

/-- C9: whenever `connect_to_db` fails (malformed config or unreachable
backend), the `/connect` route surfaces the failure — always a
ConnectionError — with status 400 and leaves the connection registry,
including any previously active handle, exactly as it was. -/
theorem claim_C9_failed_connect_preserves_registry (loads : String → Option Val) (dv : Drivers)
    (registry : Option ActiveConn) (fs : List (String × Val)) (e : PyError)
    (h : (connectToDb loads dv ((List.lookup "type" fs).getD .null)
            ((List.lookup "config" fs).getD .null)).1 = .error e) :
    connectRoute loads dv registry (.obj fs) = (registry, .err e.msg 400) ∧
    ∃ m, e = .connectionError m := by
  refine ⟨?_, connectToDb_error_class _ _ _ _ _ h⟩
  unfold connectRoute
  cases hp : connectToDb loads dv ((List.lookup "type" fs).getD .null)
      ((List.lookup "config" fs).getD .null) with
  | mk r calls =>
    rw [hp] at h
    simp only at h
    subst h
    simp [hp]

/-- Fixture: a previously stored active connection. -/
def activePrev : ActiveConn where
  dbType := .str "redis"
  conn := .redis rcMissing
  config := .obj []

/-- Witness for C9: a failing connect request (unknown kind) leaves the
previously active registry entry untouched. -/
theorem claim_C9_witness :
    ((connectToDb (fun _ => none) dvDown
        ((List.lookup "type" [("type", Val.str "sqlite")]).getD .null)
        ((List.lookup "config" [("type", Val.str "sqlite")]).getD .null)).1 =
      .error (.connectionError "Failed to connect to sqlite: Unsupported database type: sqlite")) ∧
    (connectRoute (fun _ => none) dvDown (some activePrev) (.obj [("type", .str "sqlite")]) =
      (some activePrev,
       .err (PyError.msg (.connectionError
         "Failed to connect to sqlite: Unsupported database type: sqlite")) 400) ∧
     ∃ m, (PyError.connectionError
        "Failed to connect to sqlite: Unsupported database type: sqlite") =
        .connectionError m) :=
  ⟨rfl, claim_C9_failed_connect_preserves_registry (fun _ => none) dvDown (some activePrev)
    [("type", Val.str "sqlite")] _ rfl⟩

/-- C10: a query request whose prompt is empty or whitespace-only fails with
an HTTP 400 error while the stage trace stays empty: no schema
introspection, no plan generation, no execution. -/
theorem claim_C10_blank_prompt_short_circuits (env : QueryEnv) (registry : Option ActiveConn)
    (fs : List (String × Val)) (s : String)
    (hprompt : (List.lookup "prompt" fs).getD (.str "") = .str s)
    (hblank : pyStripWs s = "") :
    ∃ m, queryRoute env registry (.obj fs) = (.err m 400, []) := by
  cases registry with
  | none => exact ⟨"No active database connection", rfl⟩
  | some active =>
    refine ⟨"Empty prompt", ?_⟩
    simp only [queryRoute]
    rw [hprompt]
    simp [hblank]

/-- Fixture: trivial external collaborators for the query route. -/
def env0 : QueryEnv where
  loads := fun _ => none
  llm := fun _ _ _ => ""
  get_schema := fun _ _ _ => .ok (.list [])
  ai := fun _ _ _ => ("", none)
  toHtml := fun _ _ => ""

/-- Witness for C10 at the whitespace-only prompt. -/
theorem claim_C10_witness :
    ((List.lookup "prompt" [("prompt", Val.str "   ")]).getD (.str "") = .str "   ") ∧
    pyStripWs "   " = "" ∧
    ∃ m, queryRoute env0 (some activePrev) (.obj [("prompt", .str "   ")]) = (.err m 400, []) :=
  ⟨rfl, rfl, claim_C10_blank_prompt_short_circuits env0 (some activePrev)
    [("prompt", Val.str "   ")] "   " rfl rfl⟩

theorem execMongo_shape (mc : MongoConn) (config plan : Val)
    (rows : List (List Val)) (cols : List String)
    (h : execMongo mc config plan = .ok (rows, cols)) :
    (rows = [] ∧ cols = []) ∨
    ∃ docs, docs ≠ [] ∧ rows = (normalizeDocs docs).1 ∧ cols = (normalizeDocs docs).2 := by
  unfold execMongo at h
  repeat' split at h
  all_goals try simp at h
  all_goals first
    | exact Or.inl h
    | (rename_i docs heq hne
       right
       have hdocs : docs ≠ [] := by intro hnil; subst hnil; simp at hne
       refine ⟨mongoIdFix docs, ?_, congrArg Prod.fst h.symm, congrArg Prod.snd h.symm⟩
       simpa [mongoIdFix] using hdocs)
    | (rename_i docs heq hne
       right
       have hdocs : docs ≠ [] := by intro hnil; subst hnil; simp at hne
       refine ⟨mongoAggIdFix docs, ?_, congrArg Prod.fst h.symm, congrArg Prod.snd h.symm⟩
       simpa [mongoAggIdFix] using hdocs)

theorem execFb_shape (fc : FbConn) (plan : Val) (rows : List (List Val)) (cols : List String)
    (h : execFb fc plan = .ok (rows, cols)) :
    (rows = [] ∧ cols = []) ∨
    ∃ docs, docs ≠ [] ∧ rows = (normalizeDocs docs).1 ∧ cols = (normalizeDocs docs).2 := by
  unfold execFb at h
  repeat' split at h
  all_goals try simp at h
  all_goals first
    | exact Or.inl h
    | (rename_i docs heq hne
       right
       have hdocs : docs ≠ [] := by intro hnil; subst hnil; simp at hne
       refine ⟨fbIdFix docs, ?_, congrArg Prod.fst h.symm, congrArg Prod.snd h.symm⟩
       simpa [fbIdFix] using hdocs)

theorem esSources_length (hits : List Val) (srcs : List Doc)
    (h : esSources hits = .ok srcs) : srcs.length = hits.length := by
  induction hits generalizing srcs with
  | nil =>
    simp only [esSources, Except.ok.injEq] at h
    subst h
    rfl
  | cons a as ih =>
    unfold esSources at h
    split at h
    · simp at h
    · split at h
      · simp at h
      · rename_i d hd ds hds
        simp only [Except.ok.injEq] at h
        subst h
        simp [ih ds hds]

theorem execEs_shape (ec : EsConn) (config body : Val) (rows : List (List Val))
    (cols : List String) (h : execEs ec config body = .ok (rows, cols)) :
    (rows = [] ∧ cols = []) ∨
    ∃ docs, docs ≠ [] ∧ rows = (normalizeDocs docs).1 ∧ cols = (normalizeDocs docs).2 := by
  unfold execEs at h
  repeat' split at h
  all_goals try simp at h
  all_goals first
    | exact Or.inl h
    | (rename_i htr x docs heq
       right
       rename_i xs hx
       have hxs : xs ≠ [] := by intro hnil; subst hnil; simp [pyTruthy] at htr
       have hlen := esSources_length xs docs heq
       have hdocs : docs ≠ [] := by
         intro hnil
         subst hnil
         simp only [List.length_nil] at hlen
         exact hxs (List.length_eq_zero.mp hlen.symm)
       exact ⟨docs, hdocs, congrArg Prod.fst h.symm, congrArg Prod.snd h.symm⟩)

/-- Uniform-arity assumption on the dynamic-fallback replies of a Redis
connection object: whenever a reflected command returns a list, wrapping its
items as rows yields rows of one common arity.  The four fixed commands need
no such assumption; without it the fallback produces ragged rows (see the
C1 counterexample). -/
def RedisConn.dynUniform (rc : RedisConn) : Prop :=
  ∀ name fn args xs, rc.dyn name = some fn → fn args = .ok (.list xs) →
    ∀ x ∈ xs, (wrapRow x).length = (wrapRow (xs.headD .null)).length

/-- The connection-level assumption under which every row of an
`execute_query` result matches the column count: only the key-value
dynamic fallback needs an assumption. -/
def connSafe : Conn → Prop
  | .redis rc => rc.dynUniform
  | _ => True

theorem execRedis_rows_length (rc : RedisConn) (plan : Val) (rows : List (List Val))
    (cols : List String) (hu : rc.dynUniform) (h : execRedis rc plan = .ok (rows, cols)) :
    ∀ r ∈ rows, r.length = cols.length := by
  unfold execRedis at h
  repeat' split at h
  all_goals try simp at h
  all_goals first
    | (obtain ⟨h1, h2⟩ := h
       subst h1
       subst h2
       intro r hr
       first
         | exact absurd hr (List.not_mem_nil r)
         | (simp only [List.mem_singleton] at hr; subst hr; simp)
         | (obtain ⟨kv, hkv, rfl⟩ := List.mem_map.mp hr; simp))
    | (rename_i fn hdyn x2 argsl hargs x1 xs hfn x0 r0 rs hmap hlen
       obtain ⟨h1, h2⟩ := h
       subst h1
       subst h2
       intro r hr
       rw [← hmap] at hr
       obtain ⟨x, hx, rfl⟩ := List.mem_map.mp hr
       have huni := hu _ fn argsl xs hdyn hfn
       have hhead : wrapRow (xs.headD .null) = r0 := by
         cases xs with
         | nil => simp at hmap
         | cons y ys =>
           simp only [List.map_cons, List.cons.injEq] at hmap
           simpa using hmap.1
       have hlenx := huni x hx
       rw [hhead] at hlenx
       simp [hlenx, hlen])

/-- C1 (amended): for every backend kind and every accepted plan, each row
of the returned tabular result has exactly `len(columns)` entries —
provided that, on the key-value dynamic-fallback path, the driver's list
replies have items of uniform arity (`connSafe`).  Without that proviso the
fallback computes the column count from the first row only and can return
ragged rows (see the counterexample). -/
theorem claim_C1_rows_match_columns (loads : String → Option Val) (conn : Conn)
    (dbType planOrSql config : Val) (rows : List (List Val)) (cols : List String)
    (hsafe : connSafe conn)
    (h : executeQuery loads conn dbType planOrSql config = .ok (rows, cols)) :
    ∀ r ∈ rows, r.length = cols.length := by
  unfold executeQuery at h
  cases hI : executeQueryInner loads conn dbType planOrSql config with
  | error e => rw [hI] at h; simp at h
  | ok rc =>
    rw [hI] at h
    simp only [Except.ok.injEq] at h
    subst h
    unfold executeQueryInner at hI
    repeat' split at hI
    all_goals try simp at hI
    all_goals first
      | (rename_i cur hcur
         obtain ⟨h1, h2⟩ := hI
         subst h1
         subst h2
         exact cur.rows_match)
      | (intro r hr
         rcases execMongo_shape _ _ _ _ _ hI with ⟨hrn, hcn⟩ | ⟨docs, hne, hr1, hc1⟩
         · subst hrn; simp at hr
         · subst hr1; subst hc1
           exact normalizeDocs_mem_length docs r hr)
      | (intro r hr
         rcases execFb_shape _ _ _ _ hI with ⟨hrn, hcn⟩ | ⟨docs, hne, hr1, hc1⟩
         · subst hrn; simp at hr
         · subst hr1; subst hc1
           exact normalizeDocs_mem_length docs r hr)
      | (intro r hr
         rcases execEs_shape _ _ _ _ _ hI with ⟨hrn, hcn⟩ | ⟨docs, hne, hr1, hc1⟩
         · subst hrn; simp at hr
         · subst hr1; subst hc1
           exact normalizeDocs_mem_length docs r hr)
      | exact execRedis_rows_length _ _ _ _ hsafe hI

/-- Fixture: a Redis store holding one value, with no dynamic commands. -/
def rcOneVal : RedisConn where
  get := fun _ => .ok (some "v1")
  set := fun _ => .ok (.bool true)
  hgetall := fun _ => .ok []
  scan := fun _ => .ok (.int 0, [])
  dyn := fun _ => none

/-- Witness for C1's amended statement on a one-row GET result. -/
theorem claim_C1_witness :
    connSafe (.redis rcOneVal) ∧
    executeQuery (fun _ => none) (.redis rcOneVal) (.str "redis")
      (.obj [("command", .str "GET"), ("args", .list [.str "k"])]) (.obj []) =
      .ok ([[.str "v1"]], ["value"]) ∧
    ∀ r ∈ [[Val.str "v1"]], r.length = (["value"] : List String).length :=
  ⟨(fun _ _ _ _ hdyn => nomatch hdyn : connSafe (.redis rcOneVal)), rfl,
   claim_C1_rows_match_columns (fun _ => none) (.redis rcOneVal) (.str "redis")
     (.obj [("command", .str "GET"), ("args", .list [.str "k"])]) (.obj [])
     [[Val.str "v1"]] ["value"] (fun _ _ _ _ hdyn => nomatch hdyn) rfl⟩

/-- Fixture: a Redis connection whose reflected command MIXED replies with a
list holding items of differing arity. -/
def rcMixed : RedisConn where
  get := fun _ => .ok none
  set := fun _ => .ok (.bool true)
  hgetall := fun _ => .ok []
  scan := fun _ => .ok (.int 0, [])
  dyn := fun n =>
    if n = "mixed" then some (fun _ => .ok (.list [.int 1, .list [.int 2, .int 3]])) else none

/-- C1 counterexample: through the key-value dynamic fallback, a command
whose reply is the list `[1, [2, 3]]` yields rows `[[1], [2, 3]]` against
the single column `value`, so the second row has 2 entries while the result
has 1 column — the invariant fails as universally stated. -/
theorem claim_C1_counterexample :
    executeQuery (fun _ => none) (.redis rcMixed) (.str "redis")
      (.obj [("command", .str "MIXED"), ("args", .list [])]) (.obj []) =
      .ok ([[.int 1], [.int 2, .int 3]], ["value"]) ∧
    ¬ (∀ r ∈ [[Val.int 1], [Val.int 2, Val.int 3]], r.length = (["value"] : List String).length) :=
  ⟨rfl, by decide⟩

/-- C4 (amended): for the document-store, schemaless-document and
search-index backends, a returned result with zero rows is exactly the
distinguished empty result with zero columns.  (SQL and key-value backends
can return zero rows alongside fixed non-empty columns.) -/
theorem claim_C4_doc_backends_empty_is_empty (loads : String → Option Val) (conn : Conn)
    (dbType planOrSql config : Val) (rows : List (List Val)) (cols : List String)
    (hkind : dbType = .str "mongodb" ∨ dbType = .str "firebase" ∨ dbType = .str "elasticsearch")
    (h : executeQuery loads conn dbType planOrSql config = .ok (rows, cols))
    (hrows : rows = []) : cols = [] := by
  subst hrows
  unfold executeQuery at h
  cases hI : executeQueryInner loads conn dbType planOrSql config with
  | error e => rw [hI] at h; simp at h
  | ok rc =>
    rw [hI] at h
    simp only [Except.ok.injEq] at h
    subst h
    rcases hkind with rfl | rfl | rfl
    · simp only [executeQueryInner] at hI
      repeat' split at hI
      all_goals try simp at hI
      rcases execMongo_shape _ _ _ _ _ hI with ⟨-, hcn⟩ | ⟨docs, hne, hr1, hc1⟩
      · exact hcn
      · exact absurd ((normalizeDocs_fst_nil_iff docs).mp hr1.symm) hne
    · simp only [executeQueryInner] at hI
      repeat' split at hI
      all_goals try simp at hI
      rcases execFb_shape _ _ _ _ hI with ⟨-, hcn⟩ | ⟨docs, hne, hr1, hc1⟩
      · exact hcn
      · exact absurd ((normalizeDocs_fst_nil_iff docs).mp hr1.symm) hne
    · simp only [executeQueryInner] at hI
      repeat' split at hI
      all_goals try simp at hI
      rcases execEs_shape _ _ _ _ _ hI with ⟨-, hcn⟩ | ⟨docs, hne, hr1, hc1⟩
      · exact hcn
      · exact absurd ((normalizeDocs_fst_nil_iff docs).mp hr1.symm) hne

/-- Fixture: a MongoDB connection returning no documents. -/
def mcEmpty : MongoConn where
  find := fun _ => .ok []
  aggregate := fun _ => .ok []

/-- Witness for C4's amended statement on an empty document-store result. -/
theorem claim_C4_witness :
    (Val.str "mongodb" = .str "mongodb" ∨ Val.str "mongodb" = .str "firebase" ∨
      Val.str "mongodb" = .str "elasticsearch") ∧
    executeQuery (fun _ => none) (.mongo mcEmpty) (.str "mongodb")
      (.obj [("collection", .str "c")]) (.obj []) = .ok ([], []) ∧
    ([] : List String) = [] :=
  ⟨Or.inl rfl, rfl,
   claim_C4_doc_backends_empty_is_empty (fun _ => none) (.mongo mcEmpty) (.str "mongodb")
     (.obj [("collection", .str "c")]) (.obj []) [] [] (Or.inl rfl) rfl rfl⟩

/-- C4 counterexample: a key-value GET on a missing key returns zero rows
with columns `["value"]`, not the distinguished `{columns: [], rows: []}`,
so the claim fails as stated over every backend kind. -/
theorem claim_C4_counterexample :
    executeQuery (fun _ => none) (.redis rcMissing) (.str "redis")
      (.obj [("command", .str "GET"), ("args", .list [.str "nope"])]) (.obj []) =
      .ok ([], ["value"]) ∧
    (["value"] : List String) ≠ [] :=
  ⟨rfl, by decide⟩

/-- C3: for every non-empty document-store (`find` as well as `aggregate`)
or schemaless-document execution result, `execute_query` returns exactly the
normalization of the identifier-adjusted returned documents, whose columns
are the lexicographically sorted, duplicate-free union of the keys occurring
across those documents and whose rows render a document's missing keys as
null. -/
theorem claim_C3_sorted_union_null_fill
    (loads : String → Option Val)
    (mc mca : MongoConn) (fc : FbConn) (cfgM cfgA cfgF planM planA planF : Val)
    (dbName coll dbNameA collA pipe : Val) (fargs : MongoFindArgs) (sargs : FbStreamArgs)
    (mdocs adocs : List Doc) (fdocs : List (Doc × String))
    (hdb : vGetD cfgM "database" Val.null = .ok dbName)
    (hcoll : vGet planM "collection" = .ok coll)
    (hop : vGetD planM "operation" (.str "find") = .ok (.str "find"))
    (hargs : mongoFindArgsOf dbName coll planM = .ok fargs)
    (hfind : mc.find fargs = .ok mdocs)
    (hmne : mdocs ≠ [])
    (hdbA : vGetD cfgA "database" Val.null = .ok dbNameA)
    (hcollA : vGet planA "collection" = .ok collA)
    (hopA : vGetD planA "operation" (.str "find") = .ok (.str "aggregate"))
    (hpipe : vGetD planA "pipeline" (.list []) = .ok pipe)
    (hagg : mca.aggregate { database := dbNameA, collection := collA, pipeline := pipe } =
      .ok adocs)
    (hane : adocs ≠ [])
    (hfargs : fbStreamArgsOf planF = .ok sargs)
    (hstream : fc.stream sargs = .ok fdocs)
    (hfne : fdocs ≠ []) :
    executeQuery loads (.mongo mc) (.str "mongodb") planM cfgM =
      .ok (normalizeDocs (mongoIdFix mdocs)) ∧
    SortedUnionNullFill (mongoIdFix mdocs)
      (normalizeDocs (mongoIdFix mdocs)).1 (normalizeDocs (mongoIdFix mdocs)).2 ∧
    executeQuery loads (.mongo mca) (.str "mongodb") planA cfgA =
      .ok (normalizeDocs (mongoAggIdFix adocs)) ∧
    SortedUnionNullFill (mongoAggIdFix adocs)
      (normalizeDocs (mongoAggIdFix adocs)).1 (normalizeDocs (mongoAggIdFix adocs)).2 ∧
    executeQuery loads (.fb fc) (.str "firebase") planF cfgF =
      .ok (normalizeDocs (fbIdFix fdocs)) ∧
    SortedUnionNullFill (fbIdFix fdocs)
      (normalizeDocs (fbIdFix fdocs)).1 (normalizeDocs (fbIdFix fdocs)).2 := by
  have hmE : mdocs.isEmpty = false := by
    cases mdocs with
    | nil => exact absurd rfl hmne
    | cons a l => rfl
  have haE : adocs.isEmpty = false := by
    cases adocs with
    | nil => exact absurd rfl hane
    | cons a l => rfl
  have hfE : fdocs.isEmpty = false := by
    cases fdocs with
    | nil => exact absurd rfl hfne
    | cons a l => rfl
  obtain ⟨fsM, rfl⟩ : ∃ fs, planM = .obj fs := by
    cases planM <;> first | exact ⟨_, rfl⟩ | simp [vGet] at hcoll
  obtain ⟨fsA, rfl⟩ : ∃ fs, planA = .obj fs := by
    cases planA <;> first | exact ⟨_, rfl⟩ | simp [vGet] at hcollA
  obtain ⟨fsF, rfl⟩ : ∃ fs, planF = .obj fs := by
    cases planF <;> first | exact ⟨_, rfl⟩ | simp [fbStreamArgsOf, vGet] at hfargs
  refine ⟨?_, normalizeDocs_spec _, ?_, normalizeDocs_spec _, ?_, normalizeDocs_spec _⟩
  · simp [executeQuery, executeQueryInner, planAsDict, execMongo, hdb, hcoll, hop, hargs,
      hfind, hmE]
  · simp [executeQuery, executeQueryInner, planAsDict, execMongo, hdbA, hcollA, hopA, hpipe,
      hagg, haE]
  · simp [executeQuery, executeQueryInner, planAsDict, execFb, hfargs, hstream, hfE]

/-- Fixture: two returned MongoDB documents with differing key sets. -/
def mdocsW : List Doc := [[("b", Val.int 1)], [("a", Val.int 2), ("_id", Val.str "x")]]

/-- Fixture: a MongoDB connection returning `mdocsW`. -/
def mcW : MongoConn where
  find := fun _ => .ok mdocsW
  aggregate := fun _ => .ok []

/-- Fixture: two aggregation result documents, one with a non-scalar
grouping identifier, one lacking a key. -/
def adocsW : List Doc :=
  [[("_id", Val.obj [("g", Val.str "x")]), ("total", Val.int 5)], [("total", Val.int 7)]]

/-- Fixture: a MongoDB connection whose aggregate call returns `adocsW`. -/
def mcaW : MongoConn where
  find := fun _ => .ok []
  aggregate := fun _ => .ok adocsW

/-- Fixture: one streamed Firestore document with its identifier. -/
def fdocsW : List (Doc × String) := [([("name", Val.str "ann")], "d1")]

/-- Fixture: a Firestore connection streaming `fdocsW`. -/
def fcW : FbConn where
  stream := fun _ => .ok fdocsW

/-- Fixture: the find-call arguments of the minimal witness plan. -/
def fargsW : MongoFindArgs where
  database := .str "db"
  collection := .str "students"
  filter := .obj []
  projection := none
  sort := none
  limit := none

/-- Fixture: the stream-call arguments of the minimal witness plan. -/
def sargsW : FbStreamArgs where
  collection := .str "students"
  wheres := []
  orderBy := none
  limit := none

/-- Witness for C3 on concrete seeded documents, covering the find,
aggregate and Firestore paths. -/
theorem claim_C3_witness :
    vGetD (Val.obj [("database", Val.str "db")]) "database" Val.null = .ok (.str "db") ∧
    vGet (Val.obj [("collection", Val.str "students")]) "collection" = .ok (.str "students") ∧
    vGetD (Val.obj [("collection", Val.str "students")]) "operation" (.str "find") =
      .ok (.str "find") ∧
    mongoFindArgsOf (.str "db") (.str "students") (.obj [("collection", .str "students")]) =
      .ok fargsW ∧
    mcW.find fargsW = .ok mdocsW ∧
    mdocsW ≠ [] ∧
    vGet (Val.obj [("collection", Val.str "students"), ("operation", Val.str "aggregate")])
      "collection" = .ok (.str "students") ∧
    vGetD (Val.obj [("collection", Val.str "students"), ("operation", Val.str "aggregate")])
      "operation" (.str "find") = .ok (.str "aggregate") ∧
    vGetD (Val.obj [("collection", Val.str "students"), ("operation", Val.str "aggregate")])
      "pipeline" (.list []) = .ok (.list []) ∧
    mcaW.aggregate
      { database := .str "db", collection := .str "students", pipeline := .list [] } =
      .ok adocsW ∧
    adocsW ≠ [] ∧
    fbStreamArgsOf (.obj [("collection", .str "students")]) = .ok sargsW ∧
    fcW.stream sargsW = .ok fdocsW ∧
    fdocsW ≠ [] ∧
    (executeQuery (fun _ => none) (.mongo mcW) (.str "mongodb")
        (.obj [("collection", .str "students")]) (.obj [("database", .str "db")]) =
      .ok (normalizeDocs (mongoIdFix mdocsW)) ∧
     SortedUnionNullFill (mongoIdFix mdocsW)
       (normalizeDocs (mongoIdFix mdocsW)).1 (normalizeDocs (mongoIdFix mdocsW)).2 ∧
     executeQuery (fun _ => none) (.mongo mcaW) (.str "mongodb")
        (.obj [("collection", .str "students"), ("operation", .str "aggregate")])
        (.obj [("database", .str "db")]) =
      .ok (normalizeDocs (mongoAggIdFix adocsW)) ∧
     SortedUnionNullFill (mongoAggIdFix adocsW)
       (normalizeDocs (mongoAggIdFix adocsW)).1 (normalizeDocs (mongoAggIdFix adocsW)).2 ∧
     executeQuery (fun _ => none) (.fb fcW) (.str "firebase")
        (.obj [("collection", .str "students")]) (.obj []) =
      .ok (normalizeDocs (fbIdFix fdocsW)) ∧
     SortedUnionNullFill (fbIdFix fdocsW)
       (normalizeDocs (fbIdFix fdocsW)).1 (normalizeDocs (fbIdFix fdocsW)).2) :=
  ⟨rfl, rfl, rfl, rfl, rfl, (by simp [mdocsW] : mdocsW ≠ []), rfl, rfl, rfl, rfl,
   (by simp [adocsW] : adocsW ≠ []), rfl, rfl, (by simp [fdocsW] : fdocsW ≠ []),
   claim_C3_sorted_union_null_fill (fun _ => none) mcW mcaW fcW
     (.obj [("database", .str "db")]) (.obj [("database", .str "db")]) (.obj [])
     (.obj [("collection", .str "students")])
     (.obj [("collection", .str "students"), ("operation", .str "aggregate")])
     (.obj [("collection", .str "students")])
     (.str "db") (.str "students") (.str "db") (.str "students") (.list [])
     fargsW sargsW mdocsW adocsW fdocsW
     rfl rfl rfl rfl rfl (by simp [mdocsW])
     rfl rfl rfl rfl rfl (by simp [adocsW])
     rfl rfl (by simp [fdocsW])⟩
